import Mathlib

/-
Shallow embedding of the `recon` payment-screening volume-monitoring
pipeline, translated from the repository sources:

  * `weekly_monitoring.py`   — sensitivity configs, `calculate_dynamic_threshold`,
                               `detect_weekly_alerts` (the production alert engine);
  * `volume_analysis.py`     — `calculate_thresholds` (v1, with the `cv` field) and
                               the v1 severity classifier from `detect_alerts`;
  * `volume_analysis_v2.py`  — the pattern-aware threshold computation of `main`
                               (`adjusted_z`, recomputed `z_threshold`);
  * `frequency_detector.py`  — `analyze_occurrence_pattern`;
  * `trend_analyzer.py`      — `calculate_trend_metrics`, `compare_recent_to_historical`.

Modelling conventions:

  * All numbers are exact rationals (`ℚ`).  The Python code works in floats,
    but every claim under consideration is about exact boundary/algebraic
    behaviour, not rounding.
  * `np.std` (population standard deviation) is the square root of a rational
    and is irrational in general, so it cannot be a computable rational-valued
    function of the sample.  Every function that consumes a standard deviation
    therefore takes it as an explicit argument (`std_vol`), or as an oracle
    `stdOf : List ℚ → ℚ` standing for `np.std` where the code computes it
    internally.  Theorems quantify over all values of this argument (subject
    only to properties the true standard deviation satisfies, such as
    non-negativity), so each theorem holds in particular for the true value.
    Evaluations at concrete inputs use samples of constant value, whose true
    standard deviation is exactly 0, so `fun _ => 0` is the exact oracle there.
  * `np.percentile` uses numpy's default linear interpolation: for the sorted
    sample `s` of size `n`, position `h = p/100 * (n-1)`, the result is
    `s[⌊h⌋] + (h - ⌊h⌋) * (s[⌊h⌋+1] - s[⌊h⌋])`.
  * Dates are integers (day numbers); `(d2 - d1).days` is `d2 - d1`.
  * A pandas DataFrame of volume records is a `List Row`; `groupby` on
    `(app, message_type)` is filtering by the key, iterated over the distinct
    keys (pandas iterates keys in sorted order, here in first-occurrence
    order — none of the proved statements depend on the iteration order).
  * Division by zero in `ℚ` yields 0, which coincides with the `mean = 0 → 0`
    guards of the specification; each use site is noted where it matters.
-/

/-! ## Basic numeric and list helpers -/

/-- Arithmetic mean of a list of rationals (`np.mean`); `0` on the empty list
(numpy would give NaN there, but every use in the sources is guarded by a
minimum sample size). -/
def mean (l : List ℚ) : ℚ := l.sum / l.length

/-- Last `n` elements of a list, i.e. pandas `tail(n)` / `Series.tail(n)`. -/
def lastN (n : ℕ) (l : List α) : List α := l.drop (l.length - n)

/-- Floor of a rational, computably (`q.num.fdiv q.den`); agrees with `⌊q⌋`. -/
def ratFloor (q : ℚ) : ℤ := q.num.fdiv q.den

/-- Embedding of `np.percentile(values, p)` with the default linear
interpolation method: sort, take position `h = p/100 * (n-1)`, and
interpolate between the two neighbouring order statistics. -/
def percentile (l : List ℚ) (p : ℚ) : ℚ :=
  let s := List.insertionSort (· ≤ ·) l
  let h : ℚ := p * ((s.length : ℚ) - 1) / 100
  let i : ℕ := (ratFloor h).toNat
  s.getD i 0 + (h - (ratFloor h : ℚ)) * (s.getD (i + 1) 0 - s.getD i 0)

/-! ## Sensitivity configuration

`SENSITIVITY_CONFIGS` / `SENSITIVITY_LEVELS` from `weekly_monitoring.py`,
`volume_analysis.py` and `volume_analysis_v2.py` (identical numeric content). -/

structure SensitivityConfig where
  z_score : ℚ
  percentile : ℚ
  min_weeks : ℕ
deriving DecidableEq

/-- `'high': {'z_score': 1.5, 'percentile': 10, 'min_weeks': 4}`. -/
def highSensitivity : SensitivityConfig := ⟨1.5, 10, 4⟩

/-- `'medium': {'z_score': 2.0, 'percentile': 5, 'min_weeks': 6}`. -/
def mediumSensitivity : SensitivityConfig := ⟨2, 5, 6⟩

/-- `'low': {'z_score': 2.5, 'percentile': 2, 'min_weeks': 8}`. -/
def lowSensitivity : SensitivityConfig := ⟨2.5, 2, 8⟩

/-! ## Dynamic threshold calculators -/

/-- Result record of `calculate_dynamic_threshold` (`weekly_monitoring.py`
lines 78–87): the final threshold, the sample mean and std, and the three
per-method thresholds. -/
structure ThresholdInfo where
  threshold : ℚ
  mean : ℚ
  std : ℚ
  z_threshold : ℚ
  percentile_threshold : ℚ
  iqr_threshold : ℚ
deriving DecidableEq

/-- `calculate_dynamic_threshold(volumes, sensitivity)` from
`weekly_monitoring.py` lines 56–87.  `std_vol` is the population standard
deviation `np.std(volumes)`, passed explicitly (see the header note). -/
def calculate_dynamic_threshold (volumes : List ℚ) (std_vol : ℚ)
    (config : SensitivityConfig) : ThresholdInfo :=
  let mean_vol := mean volumes
  let z_threshold := max 0 (mean_vol - config.z_score * std_vol)
  let percentile_threshold := percentile volumes config.percentile
  let q1 := percentile volumes 25
  let q3 := percentile volumes 75
  let iqr := q3 - q1
  let iqr_threshold := max 0 (q1 - 1.5 * iqr)
  let final_threshold := max z_threshold (max percentile_threshold iqr_threshold)
  ⟨final_threshold, mean_vol, std_vol, z_threshold, percentile_threshold, iqr_threshold⟩

/-- Result record of `calculate_thresholds` (`volume_analysis.py`
lines 160–170), including the flat-30%-drop estimator and the coefficient of
variation `cv`. -/
structure ThresholdsV1 where
  mean : ℚ
  std : ℚ
  z_score_threshold : ℚ
  percentile_threshold : ℚ
  iqr_threshold : ℚ
  percentage_threshold : ℚ
  final_threshold : ℚ
  cv : ℚ
deriving DecidableEq

/-- `calculate_thresholds(group_df, sensitivity)` from `volume_analysis.py`
lines 128–170 (the v1 calculator).  `cv = std/mean if mean > 0 else 0`;
`percentage_threshold = mean * 0.7` is computed but not folded into the max. -/
def calculate_thresholds (volumes : List ℚ) (std_vol : ℚ)
    (config : SensitivityConfig) : ThresholdsV1 :=
  let mean_vol := mean volumes
  let z_threshold := max 0 (mean_vol - config.z_score * std_vol)
  let percentile_threshold := percentile volumes config.percentile
  let q1 := percentile volumes 25
  let q3 := percentile volumes 75
  let iqr := q3 - q1
  let iqr_threshold := max 0 (q1 - 1.5 * iqr)
  let percentage_threshold := mean_vol * 0.7
  let final_threshold := max z_threshold (max percentile_threshold iqr_threshold)
  ⟨mean_vol, std_vol, z_threshold, percentile_threshold, iqr_threshold,
    percentage_threshold, final_threshold,
    if 0 < mean_vol then std_vol / mean_vol else 0⟩

/-- `adjusted_z = config['z_score'] * (1 + (1 - regularity_factor) * 0.5)` from
`volume_analysis_v2.py` line 177. -/
def adjusted_z (z_score regularity_factor : ℚ) : ℚ :=
  z_score * (1 + (1 - regularity_factor) * 0.5)

/-- `z_threshold = max(0, mean_vol - adjusted_z * std_vol)` from
`volume_analysis_v2.py` line 180 (pattern-aware variant). -/
def z_threshold_pattern (mean_vol std_vol z_score regularity_factor : ℚ) : ℚ :=
  max 0 (mean_vol - adjusted_z z_score regularity_factor * std_vol)

/-- Pattern-aware threshold computation of `volume_analysis_v2.py` `main`
lines 170–188: identical to `calculate_dynamic_threshold` except that the
z-method uses `adjusted_z`. -/
def pattern_aware_threshold (volumes : List ℚ) (std_vol : ℚ)
    (config : SensitivityConfig) (regularity_factor : ℚ) : ThresholdInfo :=
  let mean_vol := mean volumes
  let z_threshold := z_threshold_pattern mean_vol std_vol config.z_score regularity_factor
  let percentile_threshold := percentile volumes config.percentile
  let q1 := percentile volumes 25
  let q3 := percentile volumes 75
  let iqr := q3 - q1
  let iqr_threshold := max 0 (q1 - 1.5 * iqr)
  let final_threshold := max z_threshold (max percentile_threshold iqr_threshold)
  ⟨final_threshold, mean_vol, std_vol, z_threshold, percentile_threshold, iqr_threshold⟩

/-! ## Severity classifiers -/

/-- The v1 severity classifier of `detect_alerts` (`volume_analysis.py`
line 257): `'HIGH' if drop_pct > 50 else 'MEDIUM' if drop_pct > 30 else 'LOW'`. -/
def severity_v1 (drop_pct : ℚ) : String :=
  if 50 < drop_pct then "HIGH" else if 30 < drop_pct then "MEDIUM" else "LOW"

/-- The v2/production severity classifier of `detect_weekly_alerts`
(`weekly_monitoring.py` lines 169–176): CRITICAL/HIGH/MEDIUM at the ≥ 70/50/30
drop-percentage boundaries, else LOW. -/
def severity_v2 (drop_pct : ℚ) : String :=
  if 70 ≤ drop_pct then "CRITICAL"
  else if 50 ≤ drop_pct then "HIGH"
  else if 30 ≤ drop_pct then "MEDIUM"
  else "LOW"

/-! ## Frequency pattern detector (`frequency_detector.py`) -/

/-- Return value of `analyze_occurrence_pattern`: the tuple
`(frequency_category, confidence, avg_gap_days, regularity_score)`. -/
structure FreqResult where
  category : String
  confidence : ℚ
  avg_gap_days : ℚ
  regularity_score : ℚ
deriving DecidableEq

/-- Consecutive gaps (in days) between the sorted occurrence dates
(`frequency_detector.py` lines 27–30). -/
def gapsOf (dates : List ℤ) : List ℚ :=
  let s := List.insertionSort (· ≤ ·) dates
  (s.zip s.tail).map (fun p => ((p.2 - p.1 : ℤ) : ℚ))

/-- The cadence classification cascade of `analyze_occurrence_pattern`
(`frequency_detector.py` lines 53–84), including the final irregularity
override, as a function of the average gap, the regularity score and the
number of gaps.  Returns `(frequency, confidence)`. -/
def classify_gap (avg_gap regularity_score : ℚ) (gap_count : ℕ) : String × ℚ :=
  let base : String × ℚ :=
    if avg_gap ≤ 10 ∧ 0.5 < regularity_score then ("daily", regularity_score)
    else if 10 < avg_gap ∧ avg_gap ≤ 21 ∧ 0.4 < regularity_score then
      ("weekly", regularity_score)
    else if 21 < avg_gap ∧ avg_gap ≤ 45 then
      (if 0.4 < regularity_score then "biweekly" else "monthly", regularity_score)
    else if 45 < avg_gap ∧ avg_gap ≤ 120 then
      (if 0.5 < regularity_score then "monthly" else "quarterly", regularity_score * 0.8)
    else if 120 < avg_gap ∧ avg_gap ≤ 270 then
      (if 0.5 < regularity_score then "quarterly" else "semi_annual", regularity_score * 0.7)
    else
      (if 0.3 < regularity_score then "semi_annual" else "irregular", regularity_score * 0.5)
  if regularity_score < 0.3 ∧ 3 < gap_count then ("irregular", 1 - regularity_score)
  else base

/-- `analyze_occurrence_pattern(dates)` from `frequency_detector.py`
lines 13–86.  `stdOf` stands for `np.std` on the gap list (see header note).
Note the `len(gaps) == 0` branch (`'single_occurrence'`) is kept exactly as in
the source even though it is unreachable: `len(dates) ≥ 2` forces
`len(gaps) ≥ 1`. -/
def analyze_occurrence_pattern (dates : List ℤ) (stdOf : List ℚ → ℚ) : FreqResult :=
  if dates.length < 2 then ⟨"insufficient_data", 0, 0, 0⟩
  else
    let gaps := gapsOf dates
    if gaps = [] then ⟨"single_occurrence", 0, 0, 0⟩
    else
      let avg_gap := mean gaps
      let std_gap := stdOf gaps
      let cv_gap := if 0 < avg_gap then std_gap / avg_gap else 1
      let regularity_score := max 0 (1 - min cv_gap 1)
      let fc := classify_gap avg_gap regularity_score gaps.length
      ⟨fc.1, fc.2, avg_gap, regularity_score⟩

/-! ## Multi-window trend analyzer (`trend_analyzer.py`) -/

/-- Result record of `calculate_trend_metrics` (the fields the claims are
about; `min/max/median` are omitted as no claim mentions them). -/
structure TrendMetrics where
  avg_volume : ℚ
  total_volume : ℚ
  trend_direction : String
  growth_rate_pct : ℚ
  volatility : ℚ
  slope : ℚ
  data_points : ℕ
deriving DecidableEq

/-- Ordinary-least-squares slope of `scipy.stats.linregress(x, volumes)` with
`x = 0..n-1`: `Σ(xᵢ-x̄)(yᵢ-ȳ) / Σ(xᵢ-x̄)²`. -/
def linregressSlope (ys : List ℚ) : ℚ :=
  let xs : List ℚ := (List.range ys.length).map (fun i => (i : ℚ))
  let xbar := mean xs
  let ybar := mean ys
  let num := ((xs.zip ys).map (fun p => (p.1 - xbar) * (p.2 - ybar))).sum
  let den := (xs.map (fun x => (x - xbar) ^ 2)).sum
  num / den

/-- `first_half_avg` of `calculate_trend_metrics` (`trend_analyzer.py`
line 46): mean of `volumes[:len//2]` when `len >= 4`, else `volumes[0]`. -/
def firstHalfAvg (volumes : List ℚ) : ℚ :=
  if 4 ≤ volumes.length then mean (volumes.take (volumes.length / 2))
  else volumes.headD 0

/-- `second_half_avg` of `calculate_trend_metrics` (`trend_analyzer.py`
line 47): mean of `volumes[len//2:]` when `len >= 4`, else `volumes[-1]`. -/
def secondHalfAvg (volumes : List ℚ) : ℚ :=
  if 4 ≤ volumes.length then mean (volumes.drop (volumes.length / 2))
  else volumes.getLastD 0

/-- Growth rate of `calculate_trend_metrics` (`trend_analyzer.py`
lines 49–52): `(second_half_avg - first_half_avg)/first_half_avg * 100`
when `first_half_avg > 0`, else `0`. -/
def growthRate (volumes : List ℚ) : ℚ :=
  if 0 < firstHalfAvg volumes then
    (secondHalfAvg volumes - firstHalfAvg volumes) / firstHalfAvg volumes * 100
  else 0

/-- Trend direction of `calculate_trend_metrics` (`trend_analyzer.py`
lines 55–60): `stable` when `abs(growth_rate) < 5`, `increasing` when
`growth_rate > 5`, else `decreasing`. -/
def trend_direction_of (growth_rate : ℚ) : String :=
  if |growth_rate| < 5 then "stable"
  else if 5 < growth_rate then "increasing"
  else "decreasing"

/-- `calculate_trend_metrics(volumes, dates)` from `trend_analyzer.py`
lines 14–77 (`dates` is unused by the source body).  `stdOf` stands for
`np.std` (header note). -/
def calculate_trend_metrics (volumes : List ℚ) (stdOf : List ℚ → ℚ) : TrendMetrics :=
  if volumes.length = 0 then ⟨0, 0, "no_data", 0, 0, 0, 0⟩
  else
    let avg_volume := mean volumes
    let total_volume := volumes.sum
    let volatility := if 0 < avg_volume then stdOf volumes / avg_volume else 0
    if 2 ≤ volumes.length then
      ⟨avg_volume, total_volume, trend_direction_of (growthRate volumes),
        growthRate volumes, volatility, linregressSlope volumes, volumes.length⟩
    else
      ⟨avg_volume, total_volume, "insufficient_data", 0, volatility, 0, volumes.length⟩

/-- Result record of `compare_recent_to_historical` (`trend_analyzer.py`
lines 128–180). -/
structure Comparison where
  recent_avg : ℚ
  historical_avg : ℚ
  change_pct : ℚ
  status : String
deriving DecidableEq

/-- `compare_recent_to_historical(group_df, recent_weeks)` from
`trend_analyzer.py` lines 128–180, over `(date, volume)` records.  The data
model guarantees distinct dates per category, so sorting by date is
unambiguous and agrees with pandas' stable `sort_values`. -/
def compare_recent_to_historical (rows : List (ℤ × ℚ)) (recent_weeks : ℕ) : Comparison :=
  if rows.length < recent_weeks + 4 then ⟨0, 0, 0, "insufficient_data"⟩
  else
    let df_sorted := List.insertionSort (fun x y : ℤ × ℚ => x.1 ≤ y.1) rows
    let recent_avg := mean ((lastN recent_weeks df_sorted).map (fun r => r.2))
    let historical_avg :=
      mean ((df_sorted.take (df_sorted.length - recent_weeks)).map (fun r => r.2))
    let change_pct :=
      if 0 < historical_avg then (recent_avg - historical_avg) / historical_avg * 100
      else 0
    let status :=
      if |change_pct| < 10 then "normal"
      else if 10 < change_pct then "increasing"
      else if change_pct < -10 then "decreasing"
      else "normal"
    ⟨recent_avg, historical_avg, change_pct, status⟩

/-! ## Weekly alert engine (`weekly_monitoring.py`, `detect_weekly_alerts`) -/

/-- One record of the volume DataFrame: `(app, message_type, week_start_date,
volume)`.  Identifiers are opaque; we use naturals. -/
structure Row where
  app : ℕ
  msg : ℕ
  date : ℤ
  volume : ℚ
deriving DecidableEq

/-- One emitted alert (the dict appended in `detect_weekly_alerts`; the
free-text `message` field is omitted, no claim mentions it).  NO_DATA alerts
carry no `recent_4wk_avg` key, hence the `Option`. -/
structure Alert where
  app : ℕ
  msg : ℕ
  week_start_date : ℤ
  current_volume : ℚ
  threshold : ℚ
  mean_volume : ℚ
  recent_4wk_avg : Option ℚ
  drop_from_mean_pct : ℚ
  severity : String
  alert_type : String
deriving DecidableEq

/-- The rows of one `groupby(['app', 'message_type'])` group, in DataFrame
order. -/
def groupRows (df : List Row) (a m : ℕ) : List Row :=
  df.filter (fun r => r.app == a && r.msg == m)

/-- `historical_data = group[group['week_start_date'] < check_date]`
(`weekly_monitoring.py` lines 129 and 152). -/
def histRows (df : List Row) (a m : ℕ) (check_date : ℤ) : List Row :=
  (groupRows df a m).filter (fun r => r.date < check_date)

/-- `historical_data['volume'].values`. -/
def histVols (df : List Row) (a m : ℕ) (check_date : ℤ) : List ℚ :=
  (histRows df a m check_date).map (fun r => r.volume)

/-- `threshold_info = calculate_dynamic_threshold(historical_data['volume'].values,
sensitivity)` (`weekly_monitoring.py` lines 131–133 and 157–159). -/
def histThreshold (df : List Row) (a m : ℕ) (check_date : ℤ)
    (config : SensitivityConfig) (stdOf : List ℚ → ℚ) : ThresholdInfo :=
  calculate_dynamic_threshold (histVols df a m check_date)
    (stdOf (histVols df a m check_date)) config

/-- The distinct `(app, message_type)` keys of the DataFrame — the groups of
`df.groupby(['app', 'message_type'])`.  (pandas iterates them in sorted key
order; first-occurrence order is used here, and no proved statement depends
on the iteration order.) -/
def categoryKeys (df : List Row) : List (ℕ × ℕ) :=
  (df.map (fun r => (r.app, r.msg))).dedup

/-- `drop_pct = ((threshold_info['mean'] - current_vol) / threshold_info['mean']) * 100`
(`weekly_monitoring.py` line 163).  The source has no zero guard here; with
non-negative volumes the branch is only reached when the historical mean is
positive (a zero mean forces a zero threshold), and in `ℚ` a zero denominator
yields 0, matching the specification's stated guard. -/
def drop_pct (mean_vol current_vol : ℚ) : ℚ :=
  (mean_vol - current_vol) / mean_vol * 100

/-- The body of the per-group loop of `detect_weekly_alerts`
(`weekly_monitoring.py` lines 116–190) for one key `k`: skip when the group
has fewer than `min_weeks` rows; if the group has no row for the checked week,
emit the NO_DATA alert when the prior history is long enough; otherwise emit a
VOLUME_DROP alert exactly when the current volume is below the dynamic
threshold computed from the prior history.  In the source, `current_vol` is
obtained by filtering the checked week's rows by the key; that yields the same
rows (in the same order) as filtering the group by the checked date, and
`.iloc[0]` is `headD` (the group is non-empty in that branch). -/
def processCategory (df : List Row) (check_date : ℤ) (config : SensitivityConfig)
    (stdOf : List ℚ → ℚ) (k : ℕ × ℕ) : Option Alert :=
  if (groupRows df k.1 k.2).length < config.min_weeks then none
  else
    let current_rows := (groupRows df k.1 k.2).filter (fun r => r.date == check_date)
    if current_rows.isEmpty then
      if config.min_weeks ≤ (histRows df k.1 k.2 check_date).length then
        let ti := histThreshold df k.1 k.2 check_date config stdOf
        some { app := k.1, msg := k.2, week_start_date := check_date,
               current_volume := 0, threshold := ti.threshold,
               mean_volume := ti.mean, recent_4wk_avg := none,
               drop_from_mean_pct := 100, severity := "CRITICAL",
               alert_type := "NO_DATA" }
      else none
    else
      let current_vol := (current_rows.headD ⟨0, 0, 0, 0⟩).volume
      if (histRows df k.1 k.2 check_date).length < config.min_weeks then none
      else
        let ti := histThreshold df k.1 k.2 check_date config stdOf
        if current_vol < ti.threshold then
          some { app := k.1, msg := k.2, week_start_date := check_date,
                 current_volume := current_vol, threshold := ti.threshold,
                 mean_volume := ti.mean,
                 recent_4wk_avg := some (mean (lastN 4 (histVols df k.1 k.2 check_date))),
                 drop_from_mean_pct := drop_pct ti.mean current_vol,
                 severity := severity_v2 (drop_pct ti.mean current_vol),
                 alert_type := "VOLUME_DROP" }
        else none

/-- `detect_weekly_alerts(df, check_date, sensitivity)` from
`weekly_monitoring.py` lines 93–192: if no row at all exists for the checked
week, return the empty DataFrame immediately (lines 109–113); otherwise run
the per-group classification over every `(app, message_type)` group. -/
def detect_weekly_alerts (df : List Row) (check_date : ℤ)
    (config : SensitivityConfig) (stdOf : List ℚ → ℚ) : List Alert :=
  if (df.filter (fun r => r.date == check_date)).isEmpty then []
  else (categoryKeys df).filterMap (processCategory df check_date config stdOf)

/-! ## Helper lemmas -/

theorem mean_nonneg {l : List ℚ} (h : ∀ x ∈ l, 0 ≤ x) : 0 ≤ mean l :=
  div_nonneg (List.sum_nonneg h) (by positivity)

theorem sorted_zip_tail : ∀ {l : List ℤ}, l.Sorted (· ≤ ·) →
    ∀ p ∈ l.zip l.tail, p.1 ≤ p.2
  | [], _, p, hp => by simp at hp
  | [_], _, p, hp => by simp at hp
  | a :: b :: t, h, p, hp => by
    rcases List.pairwise_cons.mp h with ⟨hab, h'⟩
    rcases List.mem_cons.mp hp with hp | hp
    · subst hp; exact hab b (by simp)
    · exact sorted_zip_tail h' p hp

theorem gapsOf_nonneg (dates : List ℤ) : ∀ g ∈ gapsOf dates, 0 ≤ g := by
  intro g hg
  unfold gapsOf at hg
  rw [List.mem_map] at hg
  obtain ⟨p, hp, rfl⟩ := hg
  have hle := sorted_zip_tail (List.sorted_insertionSort _ dates) p hp
  have : (0 : ℤ) ≤ p.2 - p.1 := sub_nonneg.mpr hle
  exact_mod_cast this

theorem classify_gap_conf_bounds (g r : ℚ) (n : ℕ) (h0 : 0 ≤ r) (h1 : r ≤ 1) :
    0 ≤ (classify_gap g r n).2 ∧ (classify_gap g r n).2 ≤ 1 := by
  unfold classify_gap
  dsimp only
  split_ifs <;> dsimp only <;> constructor <;> nlinarith

theorem processCategory_key (df : List Row) (check_date : ℤ)
    (config : SensitivityConfig) (stdOf : List ℚ → ℚ) (k : ℕ × ℕ) (al : Alert)
    (h : processCategory df check_date config stdOf k = some al) :
    al.app = k.1 ∧ al.msg = k.2 := by
  simp only [processCategory] at h
  by_cases h1 : (groupRows df k.1 k.2).length < config.min_weeks
  · rw [if_pos h1] at h; exact Option.noConfusion h
  rw [if_neg h1] at h
  by_cases h2 :
      ((groupRows df k.1 k.2).filter (fun r => r.date == check_date)).isEmpty = true
  · rw [if_pos h2] at h
    by_cases h3 : config.min_weeks ≤ (histRows df k.1 k.2 check_date).length
    · rw [if_pos h3] at h
      injection h with h
      subst h
      exact ⟨rfl, rfl⟩
    · rw [if_neg h3] at h; exact Option.noConfusion h
  · rw [if_neg h2] at h
    by_cases h4 : (histRows df k.1 k.2 check_date).length < config.min_weeks
    · rw [if_pos h4] at h; exact Option.noConfusion h
    rw [if_neg h4] at h
    by_cases h5 :
        (((groupRows df k.1 k.2).filter (fun r => r.date == check_date)).headD
            ⟨0, 0, 0, 0⟩).volume <
          (histThreshold df k.1 k.2 check_date config stdOf).threshold
    · rw [if_pos h5] at h
      injection h with h
      subst h
      exact ⟨rfl, rfl⟩
    · rw [if_neg h5] at h; exact Option.noConfusion h

theorem filter_filterMap_not_mem (keys : List (ℕ × ℕ)) (f : ℕ × ℕ → Option Alert)
    (a m : ℕ) (hf : ∀ k al, f k = some al → al.app = k.1 ∧ al.msg = k.2)
    (hnm : (a, m) ∉ keys) :
    (keys.filterMap f).filter (fun al => al.app == a && al.msg == m) = [] := by
  rw [List.filter_eq_nil_iff]
  intro al hal hpred
  rw [List.mem_filterMap] at hal
  obtain ⟨k, hk, hfk⟩ := hal
  obtain ⟨h1, h2⟩ := hf k al hfk
  rw [Bool.and_eq_true, beq_iff_eq, beq_iff_eq] at hpred
  have : k = (a, m) := by
    cases k
    simp only [Prod.mk.injEq]
    exact ⟨h1.symm.trans hpred.1, h2.symm.trans hpred.2⟩
  exact hnm (this ▸ hk)

theorem filter_filterMap_none (keys : List (ℕ × ℕ)) (f : ℕ × ℕ → Option Alert)
    (a m : ℕ) (hf : ∀ k al, f k = some al → al.app = k.1 ∧ al.msg = k.2)
    (hval : f (a, m) = none) :
    (keys.filterMap f).filter (fun al => al.app == a && al.msg == m) = [] := by
  rw [List.filter_eq_nil_iff]
  intro al hal hpred
  rw [List.mem_filterMap] at hal
  obtain ⟨k, hk, hfk⟩ := hal
  obtain ⟨h1, h2⟩ := hf k al hfk
  rw [Bool.and_eq_true, beq_iff_eq, beq_iff_eq] at hpred
  have : k = (a, m) := by
    cases k
    simp only [Prod.mk.injEq]
    exact ⟨h1.symm.trans hpred.1, h2.symm.trans hpred.2⟩
  rw [this, hval] at hfk
  exact Option.noConfusion hfk

theorem filter_filterMap_single : ∀ (keys : List (ℕ × ℕ))
    (f : ℕ × ℕ → Option Alert) (a m : ℕ),
    (∀ k al, f k = some al → al.app = k.1 ∧ al.msg = k.2) →
    keys.Nodup → (a, m) ∈ keys → ∀ A : Alert, f (a, m) = some A →
    (keys.filterMap f).filter (fun al => al.app == a && al.msg == m) = [A]
  | [], _, _, _, _, _, hmem, _, _ => absurd hmem (List.not_mem_nil _)
  | k :: ks, f, a, m, hf, hnd, hmem, A, hval => by
    obtain ⟨hknm, hnd'⟩ := List.nodup_cons.mp hnd
    by_cases hk : k = (a, m)
    · subst hk
      rw [List.filterMap_cons_some hval, List.filter_cons]
      obtain ⟨h1, h2⟩ := hf _ A hval
      rw [if_pos (by rw [Bool.and_eq_true, beq_iff_eq, beq_iff_eq]; exact ⟨h1, h2⟩)]
      rw [filter_filterMap_not_mem ks f a m hf hknm]
    · have hmem' : (a, m) ∈ ks := by
        rcases List.mem_cons.mp hmem with h | h
        · exact absurd h.symm hk
        · exact h
      cases hfk : f k with
      | none =>
        rw [List.filterMap_cons_none hfk]
        exact filter_filterMap_single ks f a m hf hnd' hmem' A hval
      | some al =>
        rw [List.filterMap_cons_some hfk, List.filter_cons]
        obtain ⟨h1, h2⟩ := hf _ al hfk
        rw [if_neg]
        · exact filter_filterMap_single ks f a m hf hnd' hmem' A hval
        · rw [Bool.and_eq_true, beq_iff_eq, beq_iff_eq]
          rintro ⟨ha, hm⟩
          exact hk (by cases k; simp only [Prod.mk.injEq]
                       exact ⟨h1.symm.trans ha, h2.symm.trans hm⟩)

theorem mem_categoryKeys_of_mem {df : List Row} {r : Row} (hr : r ∈ df) :
    (r.app, r.msg) ∈ categoryKeys df := by
  unfold categoryKeys
  rw [List.mem_dedup, List.mem_map]
  exact ⟨r, hr, rfl⟩

theorem mem_of_mem_groupRows {df : List Row} {a m : ℕ} {r : Row}
    (hr : r ∈ groupRows df a m) : r ∈ df ∧ r.app = a ∧ r.msg = m := by
  unfold groupRows at hr
  rw [List.mem_filter, Bool.and_eq_true, beq_iff_eq, beq_iff_eq] at hr
  exact ⟨hr.1, hr.2.1, hr.2.2⟩

/-! ## Claim theorems -/

/-- C10.  The v1 severity classifier (`detect_alerts`, `volume_analysis.py`)
and the v2/production classifier (`detect_weekly_alerts`,
`weekly_monitoring.py`) are not equivalent: at drop percentages 80 (≥ 70),
exactly 50, and exactly 30 they assign different severities to the same
breaching observation. -/
theorem severity_classifiers_disagree :
    severity_v1 80 = "HIGH" ∧ severity_v2 80 = "CRITICAL" ∧
    severity_v1 50 = "MEDIUM" ∧ severity_v2 50 = "HIGH" ∧
    severity_v1 30 = "LOW" ∧ severity_v2 30 = "MEDIUM" ∧
    severity_v1 80 ≠ severity_v2 80 ∧ severity_v1 50 ≠ severity_v2 50 ∧
    severity_v1 30 ≠ severity_v2 30 := by
  refine ⟨?_, ?_, ?_, ?_, ?_, ?_, ?_, ?_, ?_⟩ <;> decide

/-- C7.  In the pattern-aware threshold computation, for fixed mean, standard
deviation and base z-score, `adjusted_z` is antitone and `z_threshold` is
monotone in the regularity score: `r1 ≤ r2` gives
`adjusted_z r2 ≤ adjusted_z r1` and `z_threshold r1 ≤ z_threshold r2`. -/
theorem pattern_threshold_monotone (mean_vol std_vol z_score r1 r2 : ℚ)
    (hz : 0 ≤ z_score) (hstd : 0 ≤ std_vol)
    (hr1l : 0 ≤ r1) (hr1u : r1 ≤ 1) (hr2l : 0 ≤ r2) (hr2u : r2 ≤ 1)
    (hr : r1 ≤ r2) :
    adjusted_z z_score r2 ≤ adjusted_z z_score r1 ∧
    z_threshold_pattern mean_vol std_vol z_score r1 ≤
      z_threshold_pattern mean_vol std_vol z_score r2 := by
  have ha : adjusted_z z_score r2 ≤ adjusted_z z_score r1 := by
    unfold adjusted_z; nlinarith
  refine ⟨ha, ?_⟩
  unfold z_threshold_pattern
  refine max_le_max le_rfl ?_
  have := mul_le_mul_of_nonneg_right ha hstd
  linarith

/-- C3.  For every volume sample of non-negative counts with at least
`min_weeks` entries, the dynamic threshold calculator returns
`final_threshold = max(z_threshold, percentile_threshold, iqr_threshold)`,
and that value is ≥ 0; likewise for the pattern-aware variant of
`volume_analysis_v2.py` at every regularity score. -/
theorem final_threshold_is_max_and_nonneg (volumes : List ℚ) (std_vol : ℚ)
    (config : SensitivityConfig)
    (hpos : ∀ v ∈ volumes, 0 ≤ v) (hlen : config.min_weeks ≤ volumes.length) :
    ((calculate_dynamic_threshold volumes std_vol config).threshold =
        max (calculate_dynamic_threshold volumes std_vol config).z_threshold
          (max (calculate_dynamic_threshold volumes std_vol config).percentile_threshold
            (calculate_dynamic_threshold volumes std_vol config).iqr_threshold) ∧
      0 ≤ (calculate_dynamic_threshold volumes std_vol config).threshold) ∧
    ∀ regularity_factor : ℚ,
      (pattern_aware_threshold volumes std_vol config regularity_factor).threshold =
        max (pattern_aware_threshold volumes std_vol config regularity_factor).z_threshold
          (max (pattern_aware_threshold volumes std_vol config regularity_factor).percentile_threshold
            (pattern_aware_threshold volumes std_vol config regularity_factor).iqr_threshold) ∧
      0 ≤ (pattern_aware_threshold volumes std_vol config regularity_factor).threshold := by
  refine ⟨⟨rfl, ?_⟩, fun regularity_factor => ⟨rfl, ?_⟩⟩
  · exact le_trans (le_max_left 0 _) (le_max_left _ _)
  · exact le_trans (le_max_left 0 _) (le_max_left _ _)

/-- C9.  For every occurrence series and every non-negative standard-deviation
oracle, the frequency profile satisfies `confidence ∈ [0,1]`,
`regularity_score ∈ [0,1]` and `avg_gap_days ≥ 0`, across every
classification branch and the irregular override. -/
theorem freq_profile_bounds (dates : List ℤ) (stdOf : List ℚ → ℚ)
    (hstd : ∀ l, 0 ≤ stdOf l) :
    0 ≤ (analyze_occurrence_pattern dates stdOf).confidence ∧
    (analyze_occurrence_pattern dates stdOf).confidence ≤ 1 ∧
    0 ≤ (analyze_occurrence_pattern dates stdOf).regularity_score ∧
    (analyze_occurrence_pattern dates stdOf).regularity_score ≤ 1 ∧
    0 ≤ (analyze_occurrence_pattern dates stdOf).avg_gap_days := by
  simp only [analyze_occurrence_pattern]
  by_cases h1 : dates.length < 2
  · rw [if_pos h1]; norm_num
  rw [if_neg h1]
  by_cases h2 : gapsOf dates = []
  · rw [if_pos h2]; norm_num
  rw [if_neg h2]
  dsimp only
  have havg0 : 0 ≤ mean (gapsOf dates) := mean_nonneg (gapsOf_nonneg dates)
  have hcv0 : 0 ≤ if 0 < mean (gapsOf dates) then
      stdOf (gapsOf dates) / mean (gapsOf dates) else 1 := by
    split_ifs with h
    · exact div_nonneg (hstd (gapsOf dates)) (le_of_lt h)
    · norm_num
  set cv_gap := if 0 < mean (gapsOf dates) then
      stdOf (gapsOf dates) / mean (gapsOf dates) else 1 with hcv
  set reg := max 0 (1 - min cv_gap 1) with hregdef
  have hreg0 : 0 ≤ reg := le_max_left _ _
  have hreg1 : reg ≤ 1 := by
    rw [hregdef]
    refine max_le (by norm_num) ?_
    have : 0 ≤ min cv_gap 1 := le_min hcv0 (by norm_num)
    linarith
  obtain ⟨hc0, hc1⟩ :=
    classify_gap_conf_bounds (mean (gapsOf dates)) reg (gapsOf dates).length hreg0 hreg1
  exact ⟨hc0, hc1, hreg0, hreg1, havg0⟩

/-- C5 (amended).  With fewer than 2 observations the detector returns
`insufficient_data` with confidence 0, avg_gap 0 and regularity 0 — for the
empty series and for every single-observation series alike (the
`single_occurrence` branch of the source is unreachable). -/
theorem degenerate_series_insufficient (stdOf : List ℚ → ℚ) :
    analyze_occurrence_pattern [] stdOf = ⟨"insufficient_data", 0, 0, 0⟩ ∧
    ∀ d : ℤ, analyze_occurrence_pattern [d] stdOf = ⟨"insufficient_data", 0, 0, 0⟩ :=
  ⟨rfl, fun _ => rfl⟩

/-- C5 (counterexample).  A series with exactly one observation is classified
`insufficient_data`, not `single_occurrence` as the claim states.  (The guard
`len(dates) < 2` fires before the `len(gaps) == 0` branch can; the result does
not depend on the std oracle, which is never consulted.) -/
theorem single_observation_counterexample :
    (analyze_occurrence_pattern [(5 : ℤ)] (fun _ => 0)).category = "insufficient_data" ∧
    (analyze_occurrence_pattern [(5 : ℤ)] (fun _ => 0)).category ≠ "single_occurrence" :=
  ⟨rfl, by decide⟩

/-- The occurrence series of Scenario B / C4: 13 observations spaced exactly
28 days apart. -/
def monthlyDates : List ℤ := (List.range 13).map (fun i => 28 * (i : ℤ))

/-- C6 (amended).  For every window selection with at least 2 points,
`trend_direction` is `stable` iff `|growth_rate_pct| < 5`, `increasing` iff
`growth_rate_pct > 5`, and `decreasing` otherwise — i.e. iff
`|growth_rate_pct| ≥ 5` and `growth_rate_pct ≤ 5` (so a growth rate of exactly
+5 is classified `decreasing` by the source, not `increasing`). -/
theorem trend_direction_matches_growth (volumes : List ℚ) (stdOf : List ℚ → ℚ)
    (h : 2 ≤ volumes.length) :
    ((calculate_trend_metrics volumes stdOf).trend_direction = "stable" ↔
      |(calculate_trend_metrics volumes stdOf).growth_rate_pct| < 5) ∧
    ((calculate_trend_metrics volumes stdOf).trend_direction = "increasing" ↔
      5 < (calculate_trend_metrics volumes stdOf).growth_rate_pct) ∧
    ((calculate_trend_metrics volumes stdOf).trend_direction = "decreasing" ↔
      5 ≤ |(calculate_trend_metrics volumes stdOf).growth_rate_pct| ∧
        (calculate_trend_metrics volumes stdOf).growth_rate_pct ≤ 5) := by
  have h0 : ¬ volumes.length = 0 := by omega
  simp only [calculate_trend_metrics, if_neg h0, if_pos h]
  set g := growthRate volumes with hg
  unfold trend_direction_of
  by_cases h1 : |g| < 5
  · rw [if_pos h1]
    refine ⟨⟨fun _ => h1, fun _ => rfl⟩, ?_, ?_⟩
    · constructor
      · intro hs; exact absurd hs (by decide)
      · intro h5; exfalso; have := abs_lt.mp h1; linarith
    · constructor
      · intro hs; exact absurd hs (by decide)
      · rintro ⟨ha, _⟩; exfalso; linarith
  · rw [if_neg h1]
    by_cases h2 : 5 < g
    · rw [if_pos h2]
      refine ⟨?_, ⟨fun _ => h2, fun _ => rfl⟩, ?_⟩
      · constructor
        · intro hs; exact absurd hs (by decide)
        · intro h5; exact absurd h5 h1
      · constructor
        · intro hs; exact absurd hs (by decide)
        · rintro ⟨_, hle⟩; exfalso; exact absurd hle (not_le.mpr h2)
    · rw [if_neg h2]
      refine ⟨?_, ?_, ⟨fun _ => ⟨not_lt.mp h1, not_lt.mp h2⟩, fun _ => rfl⟩⟩
      · constructor
        · intro hs; exact absurd hs (by decide)
        · intro h5; exact absurd h5 h1
      · constructor
        · intro hs; exact absurd hs (by decide)
        · intro h5; exact absurd h5 h2

/-- C8.  At each of the four guarded division sites of the Threshold
Calculator and the Trend Analyzer, a zero denominator yields 0:
`volatility = std/avg` is 0 when the average is 0; `cv = std/mean` is 0 when
the mean is 0; `growth_rate_pct` is 0 when the first-half average is 0;
`change_pct` is 0 when the historical average is 0. -/
theorem division_guards :
    (∀ (volumes : List ℚ) (stdOf : List ℚ → ℚ), mean volumes = 0 →
      (calculate_trend_metrics volumes stdOf).volatility = 0) ∧
    (∀ (volumes : List ℚ) (std_vol : ℚ) (config : SensitivityConfig), mean volumes = 0 →
      (calculate_thresholds volumes std_vol config).cv = 0) ∧
    (∀ (volumes : List ℚ) (stdOf : List ℚ → ℚ), firstHalfAvg volumes = 0 →
      (calculate_trend_metrics volumes stdOf).growth_rate_pct = 0) ∧
    (∀ (rows : List (ℤ × ℚ)) (recent_weeks : ℕ),
      (compare_recent_to_historical rows recent_weeks).historical_avg = 0 →
      (compare_recent_to_historical rows recent_weeks).change_pct = 0) := by
  refine ⟨?_, ?_, ?_, ?_⟩
  · intro volumes stdOf h
    simp only [calculate_trend_metrics]
    by_cases h0 : volumes.length = 0
    · rw [if_pos h0]
    · rw [if_neg h0]
      by_cases h2 : 2 ≤ volumes.length
      · rw [if_pos h2]; dsimp only; rw [h]; norm_num
      · rw [if_neg h2]; dsimp only; rw [h]; norm_num
  · intro volumes std_vol config h
    simp only [calculate_thresholds]
    rw [h]
    norm_num
  · intro volumes stdOf h
    simp only [calculate_trend_metrics]
    by_cases h0 : volumes.length = 0
    · rw [if_pos h0]
    · rw [if_neg h0]
      by_cases h2 : 2 ≤ volumes.length
      · rw [if_pos h2]; dsimp only
        unfold growthRate
        rw [h]
        norm_num
      · rw [if_neg h2]
  · intro rows recent_weeks h
    by_cases hc : rows.length < recent_weeks + 4
    · simp only [compare_recent_to_historical, if_pos hc]
    · simp only [compare_recent_to_historical, if_neg hc] at h ⊢
      rw [h]
      norm_num

/-- C1 (amended).  Provided at least one observation (for any category) exists
for the checked period, every category with at least `min_weeks` observations
strictly before the checked period and none at the checked period itself
receives exactly one alert, with `alert_type = NO_DATA`,
`severity = CRITICAL`, `current_volume = 0`, `drop_from_mean_pct = 100`, no
`recent_4wk_avg`, and threshold/mean taken from the prior history only. -/
theorem no_data_alert_unique (df : List Row) (check_date : ℤ)
    (config : SensitivityConfig) (stdOf : List ℚ → ℚ) (a m : ℕ)
    (hmw : 0 < config.min_weeks)
    (hwk : ∃ r ∈ df, r.date = check_date)
    (hnone : ∀ r ∈ groupRows df a m, r.date ≠ check_date)
    (hhist : config.min_weeks ≤ (histRows df a m check_date).length) :
    (detect_weekly_alerts df check_date config stdOf).filter
        (fun al => al.app == a && al.msg == m) =
      [{ app := a, msg := m, week_start_date := check_date, current_volume := 0,
         threshold := (histThreshold df a m check_date config stdOf).threshold,
         mean_volume := (histThreshold df a m check_date config stdOf).mean,
         recent_4wk_avg := none, drop_from_mean_pct := 100,
         severity := "CRITICAL", alert_type := "NO_DATA" }] := by
  obtain ⟨rw0, hrw0df, hrw0d⟩ := hwk
  have hglobal : ¬ ((df.filter (fun r => r.date == check_date)).isEmpty = true) := by
    rw [List.isEmpty_iff]
    intro hemp
    have hmemf : rw0 ∈ df.filter (fun r => r.date == check_date) :=
      List.mem_filter.mpr ⟨hrw0df, by rw [beq_iff_eq]; exact hrw0d⟩
    rw [hemp] at hmemf
    exact List.not_mem_nil _ hmemf
  have hne : histRows df a m check_date ≠ [] := by
    intro he
    rw [he] at hhist
    simp only [List.length_nil, Nat.le_zero] at hhist
    omega
  obtain ⟨rh, hrh⟩ := List.exists_mem_of_ne_nil _ hne
  have hrh' : rh ∈ groupRows df a m := (List.mem_filter.mp hrh).1
  obtain ⟨hrdf, hra, hrm⟩ := mem_of_mem_groupRows hrh'
  have hmem : (a, m) ∈ categoryKeys df := by
    have h := mem_categoryKeys_of_mem hrdf
    rwa [hra, hrm] at h
  have hlen : ¬ (groupRows df a m).length < config.min_weeks := by
    have h1 : (histRows df a m check_date).length ≤ (groupRows df a m).length :=
      List.length_filter_le _ _
    omega
  have hcur : (groupRows df a m).filter (fun r => r.date == check_date) = [] := by
    rw [List.filter_eq_nil_iff]
    intro r hr hd
    rw [beq_iff_eq] at hd
    exact hnone r hr hd
  have hproc : processCategory df check_date config stdOf (a, m) =
      some { app := a, msg := m, week_start_date := check_date, current_volume := 0,
             threshold := (histThreshold df a m check_date config stdOf).threshold,
             mean_volume := (histThreshold df a m check_date config stdOf).mean,
             recent_4wk_avg := none, drop_from_mean_pct := 100,
             severity := "CRITICAL", alert_type := "NO_DATA" } := by
    simp only [processCategory]
    rw [if_neg hlen, hcur]
    rw [if_pos (show ([] : List Row).isEmpty = true from rfl), if_pos hhist]
  unfold detect_weekly_alerts
  rw [if_neg hglobal]
  exact filter_filterMap_single (categoryKeys df) _ a m
    (fun k al h => processCategory_key df check_date config stdOf k al h)
    (by unfold categoryKeys; exact List.nodup_dedup _) hmem _ hproc

/-- C2.  For a category whose checked-period observation is `r0` (unique by
the data-model invariant) and whose prior history has at least `min_weeks`
observations: an alert is emitted if and only if
`r0.volume < final_threshold`, and when emitted it is exactly one
VOLUME_DROP alert carrying `drop_pct = (mean - observed)/mean × 100` (0 when
the mean is 0, by the ℚ division convention), the severity of the
70/50/30 classifier, and the trailing 4-period average of the (date-sorted)
prior history.  The second conjunct pins the classifier's tiers: CRITICAL iff
`drop ≥ 70`, HIGH iff `50 ≤ drop < 70`, MEDIUM iff `30 ≤ drop < 50`, LOW iff
`drop < 30`. -/
theorem volume_drop_alert_iff (df : List Row) (check_date : ℤ)
    (config : SensitivityConfig) (stdOf : List ℚ → ℚ) (a m : ℕ) (r0 : Row)
    (hmw : 0 < config.min_weeks)
    (hsorted : (groupRows df a m).Pairwise (fun x y => x.date ≤ y.date))
    (hcur : (groupRows df a m).filter (fun r => r.date == check_date) = [r0])
    (hhist : config.min_weeks ≤ (histRows df a m check_date).length) :
    ((detect_weekly_alerts df check_date config stdOf).filter
        (fun al => al.app == a && al.msg == m) =
      if r0.volume < (histThreshold df a m check_date config stdOf).threshold then
        [{ app := a, msg := m, week_start_date := check_date,
           current_volume := r0.volume,
           threshold := (histThreshold df a m check_date config stdOf).threshold,
           mean_volume := (histThreshold df a m check_date config stdOf).mean,
           recent_4wk_avg := some (mean (lastN 4 (histVols df a m check_date))),
           drop_from_mean_pct :=
             drop_pct (histThreshold df a m check_date config stdOf).mean r0.volume,
           severity :=
             severity_v2 (drop_pct (histThreshold df a m check_date config stdOf).mean r0.volume),
           alert_type := "VOLUME_DROP" }]
      else []) ∧
    (∀ d : ℚ, (severity_v2 d = "CRITICAL" ↔ 70 ≤ d) ∧
      (severity_v2 d = "HIGH" ↔ 50 ≤ d ∧ d < 70) ∧
      (severity_v2 d = "MEDIUM" ↔ 30 ≤ d ∧ d < 50) ∧
      (severity_v2 d = "LOW" ↔ d < 30)) := by
  constructor
  · have hr0 : r0 ∈ (groupRows df a m).filter (fun r => r.date == check_date) := by
      rw [hcur]; exact List.mem_singleton.mpr rfl
    obtain ⟨hr0g, hr0d⟩ := List.mem_filter.mp hr0
    rw [beq_iff_eq] at hr0d
    obtain ⟨hr0df, hr0a, hr0m⟩ := mem_of_mem_groupRows hr0g
    have hglobal : ¬ ((df.filter (fun r => r.date == check_date)).isEmpty = true) := by
      rw [List.isEmpty_iff]
      intro hemp
      have hmemf : r0 ∈ df.filter (fun r => r.date == check_date) :=
        List.mem_filter.mpr ⟨hr0df, by rw [beq_iff_eq]; exact hr0d⟩
      rw [hemp] at hmemf
      exact List.not_mem_nil _ hmemf
    have hmem : (a, m) ∈ categoryKeys df := by
      have h := mem_categoryKeys_of_mem hr0df
      rwa [hr0a, hr0m] at h
    have hlen : ¬ (groupRows df a m).length < config.min_weeks := by
      have h1 : (histRows df a m check_date).length ≤ (groupRows df a m).length :=
        List.length_filter_le _ _
      omega
    have hproc : processCategory df check_date config stdOf (a, m) =
        if r0.volume < (histThreshold df a m check_date config stdOf).threshold then
          some { app := a, msg := m, week_start_date := check_date,
                 current_volume := r0.volume,
                 threshold := (histThreshold df a m check_date config stdOf).threshold,
                 mean_volume := (histThreshold df a m check_date config stdOf).mean,
                 recent_4wk_avg := some (mean (lastN 4 (histVols df a m check_date))),
                 drop_from_mean_pct :=
                   drop_pct (histThreshold df a m check_date config stdOf).mean r0.volume,
                 severity :=
                   severity_v2
                     (drop_pct (histThreshold df a m check_date config stdOf).mean r0.volume),
                 alert_type := "VOLUME_DROP" }
        else none := by
      simp only [processCategory]
      rw [if_neg hlen, hcur]
      rw [if_neg (by simp : ¬ (([r0] : List Row).isEmpty = true))]
      rw [if_neg (not_lt.mpr hhist)]
      simp only [List.headD_cons]
    unfold detect_weekly_alerts
    rw [if_neg hglobal]
    by_cases hv : r0.volume < (histThreshold df a m check_date config stdOf).threshold
    · rw [if_pos hv] at hproc ⊢
      exact filter_filterMap_single (categoryKeys df) _ a m
        (fun k al h => processCategory_key df check_date config stdOf k al h)
        (by unfold categoryKeys; exact List.nodup_dedup _) hmem _ hproc
    · rw [if_neg hv] at hproc ⊢
      exact filter_filterMap_none (categoryKeys df) _ a m
        (fun k al h => processCategory_key df check_date config stdOf k al h) hproc
  · intro d
    unfold severity_v2
    split_ifs with h1 h2 h3
    · refine ⟨⟨fun _ => h1, fun _ => rfl⟩, ⟨fun hs => absurd hs (by decide), ?_⟩,
        ⟨fun hs => absurd hs (by decide), ?_⟩, ⟨fun hs => absurd hs (by decide), ?_⟩⟩
      · rintro ⟨_, hlt⟩; exfalso; linarith
      · rintro ⟨_, hlt⟩; exfalso; linarith
      · intro hlt; exfalso; linarith
    · refine ⟨⟨fun hs => absurd hs (by decide), fun hd => absurd hd h1⟩,
        ⟨fun _ => ⟨h2, not_le.mp h1⟩, fun _ => rfl⟩,
        ⟨fun hs => absurd hs (by decide), ?_⟩, ⟨fun hs => absurd hs (by decide), ?_⟩⟩
      · rintro ⟨_, hlt⟩; exfalso; linarith
      · intro hlt; exfalso; linarith
    · refine ⟨⟨fun hs => absurd hs (by decide), fun hd => absurd hd h1⟩,
        ⟨fun hs => absurd hs (by decide), fun hd => absurd hd.1 h2⟩,
        ⟨fun _ => ⟨h3, not_le.mp h2⟩, fun _ => rfl⟩,
        ⟨fun hs => absurd hs (by decide), ?_⟩⟩
      · intro hlt; exfalso; linarith
    · exact ⟨⟨fun hs => absurd hs (by decide), fun hd => absurd hd h1⟩,
        ⟨fun hs => absurd hs (by decide), fun hd => absurd hd.1 h2⟩,
        ⟨fun hs => absurd hs (by decide), fun hd => absurd hd.1 h3⟩,
        ⟨fun _ => not_le.mp h3, fun _ => rfl⟩⟩

/-! ## Concrete data and evaluations

The `Rat` arithmetic operations are `@[irreducible]` in the ambient library;
they are made semireducible locally so that concrete rational computations
can be decided. -/

section ConcreteEvaluations

attribute [local semireducible] Rat.ofScientific Rat.mul Rat.inv Rat.add Rat.sub

/-- DataFrame for the C1 counterexample: one category `(0,0)` with six
observations at dates 0–5 and no observation anywhere for the checked
date 100. -/
def c1df : List Row :=
  [⟨0, 0, 0, 10⟩, ⟨0, 0, 1, 10⟩, ⟨0, 0, 2, 10⟩,
   ⟨0, 0, 3, 10⟩, ⟨0, 0, 4, 10⟩, ⟨0, 0, 5, 10⟩]

/-- C1 (counterexample).  Category `(0,0)` has `min_weeks = 6` prior
observations and none for the checked period, yet the engine emits no alert
at all: when no category has data for the checked period, lines 111–113 of
`detect_weekly_alerts` return the empty DataFrame before any group is
examined, so no NO_DATA alert is produced. -/
theorem no_data_alert_counterexample :
    mediumSensitivity.min_weeks ≤ (histRows c1df 0 0 100).length ∧
    ((groupRows c1df 0 0).filter (fun r => r.date == (100 : ℤ)) = []) ∧
    detect_weekly_alerts c1df 100 mediumSensitivity (fun _ => 0) = [] ∧
    (detect_weekly_alerts c1df 100 mediumSensitivity (fun _ => 0)).filter
        (fun al => al.app == 0 && al.msg == 0) = [] := by
  refine ⟨?_, ?_, ?_, ?_⟩ <;> decide

/-- DataFrame for the C1 witness: category `(0,0)` as in `c1df`, plus a
second category `(1,1)` that does report at the checked date 100 (so the
engine's global early return is not taken). -/
def c1wdf : List Row :=
  [⟨0, 0, 0, 10⟩, ⟨0, 0, 1, 10⟩, ⟨0, 0, 2, 10⟩,
   ⟨0, 0, 3, 10⟩, ⟨0, 0, 4, 10⟩, ⟨0, 0, 5, 10⟩, ⟨1, 1, 100, 5⟩]

/-- Witness for C1 (amended) at `c1wdf`, checked date 100, medium
sensitivity, exact std oracle 0. -/
theorem no_data_alert_unique_witness :
    0 < mediumSensitivity.min_weeks ∧
    (∃ r ∈ c1wdf, r.date = (100 : ℤ)) ∧
    (∀ r ∈ groupRows c1wdf 0 0, r.date ≠ (100 : ℤ)) ∧
    mediumSensitivity.min_weeks ≤ (histRows c1wdf 0 0 100).length ∧
    (detect_weekly_alerts c1wdf 100 mediumSensitivity (fun _ => 0)).filter
        (fun al => al.app == 0 && al.msg == 0) =
      [{ app := 0, msg := 0, week_start_date := 100, current_volume := 0,
         threshold := (histThreshold c1wdf 0 0 100 mediumSensitivity (fun _ => 0)).threshold,
         mean_volume := (histThreshold c1wdf 0 0 100 mediumSensitivity (fun _ => 0)).mean,
         recent_4wk_avg := none, drop_from_mean_pct := 100,
         severity := "CRITICAL", alert_type := "NO_DATA" }] :=
  ⟨by decide, ⟨⟨1, 1, 100, 5⟩, by decide, rfl⟩, by decide, by decide,
   no_data_alert_unique c1wdf 100 mediumSensitivity (fun _ => 0) 0 0 (by decide)
     ⟨⟨1, 1, 100, 5⟩, by decide, rfl⟩ (by decide) (by decide)⟩

/-- DataFrame for the C2 witness: category `(0,0)` with six observations of
100 at dates 0–5 and the checked-period observation 40 at date 10. -/
def c2df : List Row :=
  [⟨0, 0, 0, 100⟩, ⟨0, 0, 1, 100⟩, ⟨0, 0, 2, 100⟩,
   ⟨0, 0, 3, 100⟩, ⟨0, 0, 4, 100⟩, ⟨0, 0, 5, 100⟩, ⟨0, 0, 10, 40⟩]

/-- Witness for C2 at `c2df`, checked date 10, medium sensitivity, exact std
oracle 0; the final conjuncts evaluate the run concretely — threshold 100,
mean 100, drop 60%, severity HIGH. -/
theorem volume_drop_alert_iff_witness :
    0 < mediumSensitivity.min_weeks ∧
    (groupRows c2df 0 0).Pairwise (fun x y => x.date ≤ y.date) ∧
    ((groupRows c2df 0 0).filter (fun r => r.date == (10 : ℤ)) = [⟨0, 0, 10, 40⟩]) ∧
    mediumSensitivity.min_weeks ≤ (histRows c2df 0 0 10).length ∧
    (((detect_weekly_alerts c2df 10 mediumSensitivity (fun _ => 0)).filter
        (fun al => al.app == 0 && al.msg == 0) =
      if (Row.mk 0 0 10 40).volume <
          (histThreshold c2df 0 0 10 mediumSensitivity (fun _ => 0)).threshold then
        [{ app := 0, msg := 0, week_start_date := 10,
           current_volume := (Row.mk 0 0 10 40).volume,
           threshold := (histThreshold c2df 0 0 10 mediumSensitivity (fun _ => 0)).threshold,
           mean_volume := (histThreshold c2df 0 0 10 mediumSensitivity (fun _ => 0)).mean,
           recent_4wk_avg := some (mean (lastN 4 (histVols c2df 0 0 10))),
           drop_from_mean_pct :=
             drop_pct (histThreshold c2df 0 0 10 mediumSensitivity (fun _ => 0)).mean
               (Row.mk 0 0 10 40).volume,
           severity :=
             severity_v2
               (drop_pct (histThreshold c2df 0 0 10 mediumSensitivity (fun _ => 0)).mean
                 (Row.mk 0 0 10 40).volume),
           alert_type := "VOLUME_DROP" }]
      else []) ∧
    (∀ d : ℚ, (severity_v2 d = "CRITICAL" ↔ 70 ≤ d) ∧
      (severity_v2 d = "HIGH" ↔ 50 ≤ d ∧ d < 70) ∧
      (severity_v2 d = "MEDIUM" ↔ 30 ≤ d ∧ d < 50) ∧
      (severity_v2 d = "LOW" ↔ d < 30))) ∧
    (histThreshold c2df 0 0 10 mediumSensitivity (fun _ => 0)).threshold = 100 ∧
    detect_weekly_alerts c2df 10 mediumSensitivity (fun _ => 0) =
      [⟨0, 0, 10, 40, 100, 100, some 100, 60, "HIGH", "VOLUME_DROP"⟩] :=
  ⟨by decide, by decide, by decide, by decide,
   volume_drop_alert_iff c2df 10 mediumSensitivity (fun _ => 0) 0 0 ⟨0, 0, 10, 40⟩
     (by decide) (by decide) (by decide) (by decide),
   by decide, by decide⟩

/-- Witness for C3 at the constant sample `[10,10,10,10,10,10]`, medium
sensitivity, std 0. -/
theorem final_threshold_witness :
    (∀ v ∈ ([10, 10, 10, 10, 10, 10] : List ℚ), 0 ≤ v) ∧
    mediumSensitivity.min_weeks ≤ ([10, 10, 10, 10, 10, 10] : List ℚ).length ∧
    (((calculate_dynamic_threshold [10, 10, 10, 10, 10, 10] 0 mediumSensitivity).threshold =
        max (calculate_dynamic_threshold [10, 10, 10, 10, 10, 10] 0 mediumSensitivity).z_threshold
          (max (calculate_dynamic_threshold [10, 10, 10, 10, 10, 10] 0
              mediumSensitivity).percentile_threshold
            (calculate_dynamic_threshold [10, 10, 10, 10, 10, 10] 0
              mediumSensitivity).iqr_threshold) ∧
      0 ≤ (calculate_dynamic_threshold [10, 10, 10, 10, 10, 10] 0 mediumSensitivity).threshold) ∧
    ∀ regularity_factor : ℚ,
      (pattern_aware_threshold [10, 10, 10, 10, 10, 10] 0 mediumSensitivity
          regularity_factor).threshold =
        max (pattern_aware_threshold [10, 10, 10, 10, 10, 10] 0 mediumSensitivity
            regularity_factor).z_threshold
          (max (pattern_aware_threshold [10, 10, 10, 10, 10, 10] 0 mediumSensitivity
              regularity_factor).percentile_threshold
            (pattern_aware_threshold [10, 10, 10, 10, 10, 10] 0 mediumSensitivity
              regularity_factor).iqr_threshold) ∧
      0 ≤ (pattern_aware_threshold [10, 10, 10, 10, 10, 10] 0 mediumSensitivity
          regularity_factor).threshold) ∧
    (calculate_dynamic_threshold [10, 10, 10, 10, 10, 10] 0 mediumSensitivity).threshold = 10 :=
  ⟨by decide, by decide,
   final_threshold_is_max_and_nonneg [10, 10, 10, 10, 10, 10] 0 mediumSensitivity
     (by decide) (by decide),
   by decide⟩

/-- Witness for C7 at mean 10, std 3, z-score 2, regularity scores 0 ≤ 1. -/
theorem pattern_threshold_monotone_witness :
    (0 : ℚ) ≤ 2 ∧ (0 : ℚ) ≤ 3 ∧ (0 : ℚ) ≤ 0 ∧ (0 : ℚ) ≤ 1 ∧ (1 : ℚ) ≤ 1 ∧
    (adjusted_z 2 1 ≤ adjusted_z 2 0 ∧
      z_threshold_pattern 10 3 2 0 ≤ z_threshold_pattern 10 3 2 1) ∧
    adjusted_z 2 0 = 3 ∧ adjusted_z 2 1 = 2 ∧
    z_threshold_pattern 10 3 2 0 = 1 ∧ z_threshold_pattern 10 3 2 1 = 4 :=
  ⟨by decide, by decide, by decide, by decide, by decide,
   pattern_threshold_monotone 10 3 2 0 1 (by decide) (by decide) (by decide)
     (by decide) (by decide) (by decide) (by decide),
   by decide, by decide, by decide, by decide⟩

/-- C4 (evaluation at the failing input).  The Scenario-B series — 13
observations spaced exactly 28 days apart — is classified `biweekly` with
confidence 1 (via the `21 < avg_gap ≤ 45`, `regularity > 0.4` branch), not
`monthly` as the claim and the source's own comments and test labels state.
The gaps are all 28, so the exact standard deviation of the gap list is 0. -/
theorem monthly_series_classified_biweekly :
    analyze_occurrence_pattern monthlyDates (fun _ => 0) = ⟨"biweekly", 1, 28, 1⟩ ∧
    (analyze_occurrence_pattern monthlyDates (fun _ => 0)).category ≠ "monthly" := by
  constructor <;> decide

/-- C6 (counterexample).  For the window `[100, 105]` the growth rate is
exactly +5 — positive and outside the stable band — yet the source classifies
the trend as `decreasing`, not `increasing` as the claim states. -/
theorem growth_rate_five_counterexample :
    (calculate_trend_metrics [(100 : ℚ), 105] (fun _ => 0)).growth_rate_pct = 5 ∧
    0 < (calculate_trend_metrics [(100 : ℚ), 105] (fun _ => 0)).growth_rate_pct ∧
    ¬ |(calculate_trend_metrics [(100 : ℚ), 105] (fun _ => 0)).growth_rate_pct| < 5 ∧
    (calculate_trend_metrics [(100 : ℚ), 105] (fun _ => 0)).trend_direction = "decreasing" := by
  refine ⟨?_, ?_, ?_, ?_⟩ <;> decide

/-- Witness for C6 (amended) at the window `[100, 200]` (growth rate 100,
classified `increasing`). -/
theorem trend_direction_matches_growth_witness :
    2 ≤ ([(100 : ℚ), 200] : List ℚ).length ∧
    (((calculate_trend_metrics [(100 : ℚ), 200] (fun _ => 0)).trend_direction = "stable" ↔
        |(calculate_trend_metrics [(100 : ℚ), 200] (fun _ => 0)).growth_rate_pct| < 5) ∧
      ((calculate_trend_metrics [(100 : ℚ), 200] (fun _ => 0)).trend_direction = "increasing" ↔
        5 < (calculate_trend_metrics [(100 : ℚ), 200] (fun _ => 0)).growth_rate_pct) ∧
      ((calculate_trend_metrics [(100 : ℚ), 200] (fun _ => 0)).trend_direction = "decreasing" ↔
        5 ≤ |(calculate_trend_metrics [(100 : ℚ), 200] (fun _ => 0)).growth_rate_pct| ∧
          (calculate_trend_metrics [(100 : ℚ), 200] (fun _ => 0)).growth_rate_pct ≤ 5)) ∧
    (calculate_trend_metrics [(100 : ℚ), 200] (fun _ => 0)).trend_direction = "increasing" :=
  ⟨by decide, trend_direction_matches_growth [100, 200] (fun _ => 0) (by decide), by decide⟩

/-- Witness for C8: concrete zero-denominator inputs for each of the four
guarded division sites. -/
theorem division_guards_witness :
    mean ([] : List ℚ) = 0 ∧
    (calculate_trend_metrics [] (fun _ => 0)).volatility = 0 ∧
    (calculate_thresholds [] 0 mediumSensitivity).cv = 0 ∧
    firstHalfAvg [(0 : ℚ), 0] = 0 ∧
    (calculate_trend_metrics [(0 : ℚ), 0] (fun _ => 0)).growth_rate_pct = 0 ∧
    (compare_recent_to_historical (List.replicate 8 ((0 : ℤ), (0 : ℚ))) 4).historical_avg = 0 ∧
    (compare_recent_to_historical (List.replicate 8 ((0 : ℤ), (0 : ℚ))) 4).change_pct = 0 :=
  ⟨by decide, division_guards.1 [] (fun _ => 0) (by decide),
   division_guards.2.1 [] 0 mediumSensitivity (by decide),
   by decide, division_guards.2.2.1 [0, 0] (fun _ => 0) (by decide),
   by decide,
   division_guards.2.2.2 (List.replicate 8 ((0 : ℤ), (0 : ℚ))) 4 (by decide)⟩

/-- Witness for C9 at the two-observation series `[0, 7]` with the exact std
oracle 0 (the gap list `[7]` has standard deviation 0). -/
theorem freq_profile_bounds_witness :
    (∀ l : List ℚ, 0 ≤ (fun _ : List ℚ => (0 : ℚ)) l) ∧
    (0 ≤ (analyze_occurrence_pattern [(0 : ℤ), 7] (fun _ => 0)).confidence ∧
      (analyze_occurrence_pattern [(0 : ℤ), 7] (fun _ => 0)).confidence ≤ 1 ∧
      0 ≤ (analyze_occurrence_pattern [(0 : ℤ), 7] (fun _ => 0)).regularity_score ∧
      (analyze_occurrence_pattern [(0 : ℤ), 7] (fun _ => 0)).regularity_score ≤ 1 ∧
      0 ≤ (analyze_occurrence_pattern [(0 : ℤ), 7] (fun _ => 0)).avg_gap_days) :=
  ⟨fun _ => le_refl 0, freq_profile_bounds [0, 7] (fun _ => 0) (fun _ => le_refl 0)⟩

end ConcreteEvaluations
